import Mathlib

/-!
Verification development for a dashboard's data-reconciliation layer.

The code under verification loads loosely-schematized tabular data
(pandas DataFrames), resolves column names from priority lists
(`pick_first`), normalizes geographic keys (`safe_to_str_zfill`),
derives a signed percentage-point margin column from one of several
source shapes (tab 1 of `app.py`), inner-joins two yearly tables and
re-derives margins and a winner label (tab 2 of `app.py`), and
reshapes a wide energy table to long format (`visualization3_dark.py`).

Tables are embedded as an ordered list of column names plus rows of
(column, cell) association lists.  Numeric cells are rationals; the
missing value NaN is `Cell.null` (comparisons with it are false, as in
pandas, and it is skipped by column maxima).  Division is guarded: a
zero denominator yields `Cell.null` instead of the float infinity the
source would produce.
-/

set_option maxHeartbeats 1000000

namespace Dashboards

/-- A cell of a table: missing (NaN), an integer, a rational number
(standing for a float), or a string. -/
inductive Cell where
  | null : Cell
  | int (n : Int) : Cell
  | num (q : ℚ) : Cell
  | str (s : String) : Cell
deriving DecidableEq, Repr

/-- Numeric view of a cell, as `astype(float)` would produce: integers
and rationals convert, missing values and strings do not. -/
def Cell.toRat : Cell → Option ℚ
  | .null => none
  | .int n => some (n : ℚ)
  | .num q => some q
  | .str _ => none

/-- `astype(float)` on a cell: numeric cells become `num`, everything
else becomes the missing value. -/
def cellToFloat (c : Cell) : Cell :=
  match c.toRat with
  | some q => .num q
  | none => .null

/-- A row: association list from column name to cell. -/
abbrev Row := List (String × Cell)

/-- A table: ordered column names plus rows. -/
structure Table where
  cols : List String
  rows : List Row
deriving DecidableEq, Repr

/-- First binding of a key in an association list. -/
def alookup (c : String) : Row → Option Cell
  | [] => none
  | (k, v) :: r => if k = c then some v else alookup c r

/-- Cell of a row at a column; missing binding reads as the missing value. -/
def getCell (r : Row) (c : String) : Cell :=
  (alookup c r).getD Cell.null

/-- A whole column of a table, one cell per row. -/
def getCol (df : Table) (c : String) : List Cell :=
  df.rows.map (fun r => getCell r c)

/-- Overwrite (or create) the binding of a column in a row. -/
def setCell (r : Row) (c : String) (v : Cell) : Row :=
  (c, v) :: r.filter (fun p => p.1 ≠ c)

/-- `df[name] = vals`: add or overwrite a column. -/
def addCol (df : Table) (name : String) (vals : List Cell) : Table :=
  { cols := if name ∈ df.cols then df.cols else df.cols ++ [name],
    rows := List.zipWith (fun r v => setCell r name v) df.rows vals }

/-- `df.drop(columns=...)` restricted to the names that are present. -/
def dropCols (df : Table) (toDrop : List String) : Table :=
  { cols := df.cols.filter (fun c => c ∉ toDrop),
    rows := df.rows.map (fun r => r.filter (fun p => p.1 ∉ toDrop)) }

/-- `df.rename(columns={old: new})`. -/
def renameCol (df : Table) (old new : String) : Table :=
  { cols := df.cols.map (fun c => if c = old then new else c),
    rows := df.rows.map (fun r => r.map (fun p => if p.1 = old then (new, p.2) else p)) }

/-- Column Resolver (`pick_first` in `app.py`): first candidate, in
candidate-list order, that is among the table's columns. -/
def pick_first (df : Table) : List String → Option String
  | [] => none
  | c :: rest => if c ∈ df.cols then some c else pick_first df rest

/-- String form of a cell, as pandas `astype(str)` would render it:
integers print plainly, missing values print as the string nan,
rationals with integral value print with a trailing point-zero. -/
def cellToStr : Cell → String
  | .null => "nan"
  | .int n => toString n
  | .num q => if q.den = 1 then toString q.num ++ ".0" else toString q
  | .str s => s

/-- Python `str.zfill` on a character list: pad on the left with zeros
up to `width`, keeping a leading sign in front of the padding; strings
already at least `width` long are returned unchanged. -/
def zfillAux (width : Nat) (l : List Char) : List Char :=
  if width ≤ l.length then l
  else
    match l with
    | [] => List.replicate width '0'
    | c :: rest =>
        if c = '-' ∨ c = '+' then c :: (List.replicate (width - l.length) '0' ++ rest)
        else List.replicate (width - l.length) '0' ++ (c :: rest)

/-- Python `str.zfill`. -/
def zfill (width : Nat) (s : String) : String :=
  ⟨zfillAux width s.data⟩

/-- Geographic Key Normalizer (`safe_to_str_zfill` in `app.py`):
`s.astype(str).str.zfill(width)` over a column of cells. -/
def safe_to_str_zfill (cells : List Cell) (width : Nat) : List String :=
  cells.map (fun c => zfill width (cellToStr c))

/-- `df[c] = safe_to_str_zfill(df[c], width=5)`. -/
def zfillCol (df : Table) (c : String) : Table :=
  addCol df c ((safe_to_str_zfill (getCol df c) 5).map Cell.str)

/-- Maximum of a list of rationals, `none` on the empty list. -/
def listMaxQ : List ℚ → Option ℚ
  | [] => none
  | q :: rest =>
      match listMaxQ rest with
      | none => some q
      | some m => some (max q m)

/-- `col.abs().max()` with pandas NaN-skipping: maximum absolute value
of the numeric cells, `none` when there is none (an all-NaN column). -/
def colMaxAbs (cells : List Cell) : Option ℚ :=
  listMaxQ ((cells.filterMap Cell.toRat).map (fun q => |q|))

/-- `max <= bound` where a missing maximum (NaN) compares false, as in
pandas. -/
def maxLE (o : Option ℚ) (bound : ℚ) : Bool :=
  match o with
  | some m => decide (m ≤ bound)
  | none => false

/-- Scale detection for a share pair: `100 if df[col].abs().max() <= 1.5
else 1`, computed from the first (GOP) share column only. -/
def sharePairScale (df : Table) (t : String) : ℚ :=
  if maxLE (colMaxAbs (getCol df t)) (3 / 2) then 100 else 1

/-- `a - b` on cells after `astype(float)`; missing operands give NaN. -/
def cellSub (a b : Cell) : Cell :=
  match a.toRat, b.toRat with
  | some x, some y => .num (x - y)
  | _, _ => .null

/-- Multiply a cell by a constant scale after `astype(float)`. -/
def cellMulConst (s : ℚ) (c : Cell) : Cell :=
  match c.toRat with
  | some x => .num (x * s)
  | none => .null

/-- `a + b` on cells; missing operands give NaN. -/
def cellAdd (a b : Cell) : Cell :=
  match a.toRat, b.toRat with
  | some x, some y => .num (x + y)
  | _, _ => .null

/-- `fillna(0)` on a cell. -/
def cellFillna0 (c : Cell) : Cell :=
  if c = Cell.null then Cell.num 0 else c

/-- Share-pair margin: `(df[t].astype(float) - df[b].astype(float)) * scale`
with the scale detected from the first column. -/
def sharePairMargin (df : Table) (t b : String) : List Cell :=
  List.zipWith (fun x y => cellMulConst (sharePairScale df t) (cellSub x y))
    (getCol df t) (getCol df b)

/-- Pre-computed margin rescale: `np.where(m.abs().max() <= 1.5, m*100, m)`
where `m = df[mcol].astype(float)`. -/
def preMarginVals (df : Table) (mcol : String) : List Cell :=
  if maxLE (colMaxAbs ((getCol df mcol).map cellToFloat)) (3 / 2)
  then ((getCol df mcol).map cellToFloat).map (cellMulConst 100)
  else (getCol df mcol).map cellToFloat

/-- One row of the vote-count margin: `(a - b) / tot * 100`.  In the
embedding the division is guarded: a zero denominator yields the
missing value (the source divides unguarded, producing a float
infinity or NaN). -/
def voteMarginCell (a b tot : Cell) : Cell :=
  match a.toRat, b.toRat, tot.toRat with
  | some x, some y, some z => if z = 0 then .null else .num ((x - y) / z * 100)
  | _, _, _ => .null

/-- Three-list pointwise combination, truncating at the shortest. -/
def zip3With (f : Cell → Cell → Cell → Cell) : List Cell → List Cell → List Cell → List Cell
  | a :: as, b :: bs, c :: cs => f a b c :: zip3With f as bs cs
  | _, _, _ => []

/-- Vote-count margin column over the table's columns `t`, `b`, `tot`. -/
def voteCountMargin (df : Table) (t b tot : String) : List Cell :=
  zip3With voteMarginCell (getCol df t) (getCol df b) (getCol df tot)

/-- Row-wise fallback total: `df[t].fillna(0) + df[b].fillna(0)`. -/
def totalsFallback (df : Table) (t b : String) : List Cell :=
  List.zipWith (fun x y => cellAdd (cellFillna0 x) (cellFillna0 y))
    (getCol df t) (getCol df b)

/-! ### Tab 1: candidate lists and the margin derivation chain -/

def fips_cands : List String :=
  ["GEOID", "fips", "FIPS", "county_fips", "county_fips_code", "fips_code", "countyFIPS"]

def trump_pct_cands : List String :=
  ["trump_pct", "pct_trump", "per_gop", "pct_gop", "rep_pct", "republican_pct"]

def biden_pct_cands : List String :=
  ["biden_pct", "pct_biden", "per_dem", "pct_dem", "dem_pct", "democrat_pct"]

def trump_votes_cands : List String :=
  ["trump_votes", "votes_trump", "gop_votes", "rep_votes", "republican_votes"]

def biden_votes_cands : List String :=
  ["biden_votes", "votes_biden", "dem_votes", "democrat_votes"]

def total_votes_cands : List String :=
  ["total_votes", "votes_total", "total", "ballots"]

def pre_margin_cands : List String :=
  ["margin", "margin_pct", "rep_margin", "gop_margin", "trump_biden_margin",
   "trump_minus_biden_pct", "biden_trump_margin", "per_point_diff"]

/-- Which of the three margin source shapes was used. -/
inductive MarginShape where
  | sharePair (t b : String) : MarginShape
  | preMargin (m : String) : MarginShape
  | voteCounts (t b tot : String) : MarginShape
deriving DecidableEq, Repr

/-- Outcome of the tab-1 margin derivation: either a table extended
with the derived column together with the shape that produced it, or
the user-facing error message. -/
inductive Tab1Out where
  | ok (shape : MarginShape) (df : Table) : Tab1Out
  | err (msg : String) : Tab1Out
deriving DecidableEq, Repr

/-- The `st.error` text of the failure branch: it names the missing
semantic fields and lists the available columns. -/
def tab1_error_msg (df : Table) : String :=
  "Could not find Trump/Kamala percent or vote columns to compute a margin. Available columns: "
    ++ String.intercalate (", ") df.cols

/-- The table produced by the vote-count branch when no total column
resolves: the fallback total column is added to the working table and
the margin is computed against it. -/
def tab1_fallback_table (df : Table) (tv bv : String) : Table :=
  addCol (addCol df ("__total_votes__") (totalsFallback df tv bv)) ("margin_pct")
    (voteCountMargin (addCol df ("__total_votes__") (totalsFallback df tv bv)) tv bv
      ("__total_votes__"))

/-- Tab-1 margin derivation (`app.py` lines 110-132): try the share
pair, then a pre-computed margin column, then raw vote counts (adding
a fallback total column when no total column resolves), else fail. -/
def tab1_margin (df : Table) : Tab1Out :=
  match pick_first df trump_pct_cands, pick_first df biden_pct_cands with
  | some t, some b => .ok (.sharePair t b) (addCol df ("margin_pct") (sharePairMargin df t b))
  | _, _ =>
    match pick_first df pre_margin_cands with
    | some m => .ok (.preMargin m) (addCol df ("margin_pct") (preMarginVals df m))
    | none =>
      match pick_first df trump_votes_cands, pick_first df biden_votes_cands with
      | some tv, some bv =>
        match pick_first df total_votes_cands with
        | some tc => .ok (.voteCounts tv bv tc) (addCol df ("margin_pct") (voteCountMargin df tv bv tc))
        | none => .ok (.voteCounts tv bv ("__total_votes__")) (tab1_fallback_table df tv bv)
      | _, _ => .err (tab1_error_msg df)

/-! ### Tab 2: cross-year join, margin re-derivation and winner label -/

/-- Columns dropped from the 2020 table before the merge. -/
def tab2_drop_cols : List String :=
  ["state_name", "county_name", "votes_gop", "votes_dem", "total_votes", "diff"]

/-- Left-side (2024) column renaming of `pd.merge(..., suffixes=('_2024','_2020'))`:
a column colliding with a right-side column is suffixed, except the
join key when both sides join on the same name. -/
def mergeRenameL (rcols : List String) (keyL keyR : String) (c : String) : String :=
  if c ∈ rcols ∧ ¬(c = keyL ∧ keyL = keyR) then c ++ "_2024" else c

/-- Right-side (2020) column renaming of the merge. -/
def mergeRenameR (lcols : List String) (keyL keyR : String) (c : String) : String :=
  if c ∈ lcols ∧ ¬(c = keyR ∧ keyL = keyR) then c ++ "_2020" else c

/-- `pd.merge(L, R, left_on=keyL, right_on=keyR, how='inner',
suffixes=('_2024','_2020'))`: every left row is paired with every
right row whose key cell equals its key cell; colliding column names
are suffixed; when both sides join on the same column name the merged
table keeps a single copy of that column. -/
def mergeInner (L R : Table) (keyL keyR : String) : Table :=
  let renL := mergeRenameL R.cols keyL keyR
  let renR := mergeRenameR L.cols keyL keyR
  let rKeep : List String := if keyL = keyR then R.cols.filter (fun c => c ≠ keyR) else R.cols
  { cols := L.cols.map renL ++ rKeep.map renR,
    rows := L.rows.flatMap (fun r1 =>
      (R.rows.filter (fun r2 => getCell r2 keyR = getCell r1 keyL)).map (fun r2 =>
        let r2' := if keyL = keyR then r2.filter (fun p => p.1 ≠ keyR) else r2
        r1.map (fun p => (renL p.1, p.2)) ++ r2'.map (fun p => (renR p.1, p.2)))) }

/-- Zfill both key columns, drop the fixed 2020 columns, merge. -/
def tab2_merged (df24 df20 : Table) (f24 f20 : String) : Table :=
  mergeInner (zfillCol df24 f24) (dropCols (zfillCol df20 f20) tab2_drop_cols) f24 f20

def per_gop_2024_cands : List String :=
  ["per_gop_2024", "per_gop_2024", "per_gop", "pct_gop_2024", "gop_pct_2024", "per_gop"]

def per_dem_2024_cands : List String :=
  ["per_dem_2024", "per_dem", "pct_dem_2024", "dem_pct_2024", "per_dem"]

def per_gop_2020_cands : List String :=
  ["per_gop_2020", "per_gop_2020", "per_gop_2020"]

def per_dem_2020_cands : List String :=
  ["per_dem_2020", "per_dem_2020", "per_dem_2020"]

def votes_gop_2024_cands : List String :=
  ["gop_votes_2024", "votes_gop_2024", "votes_gop", "gop_votes"]

def votes_dem_2024_cands : List String :=
  ["dem_votes_2024", "votes_dem_2024", "votes_dem", "dem_votes"]

def total_votes_2024_cands : List String :=
  ["total_votes_2024", "total_votes"]

/-- The 2024 margin block of tab 2: skipped when `per_point_diff_2024`
already exists; else share pair with scale from the GOP column; else
vote counts with fallback total; else leave the table unchanged. -/
def tab2_margin24_block (m : Table) : Table :=
  if ("per_point_diff_2024") ∈ m.cols then m
  else
    match pick_first m per_gop_2024_cands, pick_first m per_dem_2024_cands with
    | some g, some d => addCol m ("per_point_diff_2024") (sharePairMargin m g d)
    | _, _ =>
      match pick_first m votes_gop_2024_cands, pick_first m votes_dem_2024_cands with
      | some vg, some vd =>
        match pick_first m total_votes_2024_cands with
        | some tc => addCol m ("per_point_diff_2024") (voteCountMargin m vg vd tc)
        | none =>
          let m2 := addCol m ("__total_votes__") (totalsFallback m vg vd)
          addCol m2 ("per_point_diff_2024") (voteCountMargin m2 vg vd ("__total_votes__"))
      | _, _ => m

/-- The 2020 margin block of tab 2: share pair only; the fallback of
the source is a bare `pass`, so otherwise nothing is added.  As in the
source, the 2020 share columns are resolved against the merged table
as it was before the 2024 block (`m0`), while the guard and the values
read the current working table (`m1`). -/
def tab2_margin20_block (m0 m1 : Table) : Table :=
  if ("per_point_diff_2020") ∈ m1.cols then m1
  else
    match pick_first m0 per_gop_2020_cands, pick_first m0 per_dem_2020_cands with
    | some g, some d => addCol m1 ("per_point_diff_2020") (sharePairMargin m1 g d)
    | _, _ => m1

/-- Both margin blocks, in source order. -/
def tab2_add_margins (m : Table) : Table :=
  tab2_margin20_block m (tab2_margin24_block m)

/-- The `state_name` rename of tab 2. -/
def tab2_rename_state (m : Table) : Table :=
  if ("state_name_2024") ∈ m.cols then renameCol m ("state_name_2024") ("State")
  else if ("state_name") ∈ m.cols then renameCol m ("state_name") ("State")
  else m

def p_gop_24_cands : List String :=
  ["per_gop_2024", "per_gop", "per_gop2024", "per_gop_24", "pct_gop_2024"]

def p_dem_24_cands : List String :=
  ["per_dem_2024", "per_dem", "per_dem2024", "per_dem_24", "pct_dem_2024"]

/-- `a > b` after `astype(float)`; comparisons against NaN are false. -/
def cellGT (a b : Cell) : Bool :=
  match a.toRat, b.toRat with
  | some x, some y => decide (y < x)
  | _, _ => false

/-- `x > 0`; NaN compares false. -/
def cellPos (a : Cell) : Bool :=
  match a.toRat with
  | some x => decide (0 < x)
  | none => false

/-- The winner-label column of tab 2: share comparison when both share
columns resolve, else the sign of `per_point_diff_2024` when that
column exists, else the constant sentinel. -/
def winner_2024_vals (df : Table) : List Cell :=
  match pick_first df p_gop_24_cands, pick_first df p_dem_24_cands with
  | some g, some d =>
      df.rows.map (fun r =>
        .str (if cellGT (getCell r g) (getCell r d) then ("Republican") else ("Democratic")))
  | _, _ =>
      if ("per_point_diff_2024") ∈ df.cols then
        df.rows.map (fun r =>
          .str (if cellPos (getCell r ("per_point_diff_2024")) then ("Republican") else ("Democratic")))
      else df.rows.map (fun _ => .str ("Unknown"))

/-- `merged_df['Winner_2024'] = ...`. -/
def add_winner_2024 (df : Table) : Table :=
  addCol df ("Winner_2024") (winner_2024_vals df)

/-- The whole tab-2 pipeline, from the two raw year tables to the
table that is plotted, or the FIPS error message. -/
def tab2_result (df24 df20 : Table) : Except String Table :=
  match pick_first df24 fips_cands, pick_first df20 fips_cands with
  | some f24, some f20 =>
      .ok (add_winner_2024 (tab2_rename_state (tab2_add_margins (tab2_merged df24 df20 f24 f20))))
  | _, _ =>
      .error ("Couldn't find FIPS-like column in one of the files. Please ensure both files contain a FIPS column.")

/-! ### Visualization 3: wide-to-long energy reshape -/

/-- `df.filter(items=...)`: keep exactly the listed columns that are
present, in list order, rebuilding each row accordingly. -/
def filterItems (df : Table) (items : List String) : Table :=
  let kept := items.filter (fun c => c ∈ df.cols)
  { cols := kept, rows := df.rows.map (fun r => kept.map (fun c => (c, getCell r c))) }

/-- `df.melt(id_vars=..., var_name=..., value_name=...)`: one output
row per (value column, input row), variable-major as in pandas. -/
def melt (df : Table) (idVars : List String) (varName valName : String) : Table :=
  let valueVars := df.cols.filter (fun c => c ∉ idVars)
  { cols := idVars ++ [varName, valName],
    rows := valueVars.flatMap (fun v =>
      df.rows.map (fun r =>
        idVars.map (fun c => (c, getCell r c)) ++ [(varName, Cell.str v), (valName, getCell r v)])) }

/-- `df.dropna(subset=...)`: keep the rows whose cells at all the
subset columns are present. -/
def dropna (df : Table) (subset : List String) : Table :=
  { cols := df.cols,
    rows := df.rows.filter (fun r => subset.all (fun c => getCell r c ≠ Cell.null)) }

/-- The `filter(items=...)` list of `load_data`. -/
def energy_filter_items : List String :=
  ["country", "year", "iso_code", "population", "gdp",
   "biofuel", "coal", "gas", "hydro", "nuclear", "oil", "other_renewable", "solar", "wind"]

/-- The melt id columns of `load_data`. -/
def energy_id_vars : List String :=
  ["country", "year", "iso_code", "population", "gdp"]

/-- The fixed nine-category fuel set. -/
def fuel_sources : List String :=
  ["biofuel", "coal", "gas", "hydro", "nuclear", "oil", "other_renewable", "solar", "wind"]

/-- The wide table after column filtering. -/
def energy_wide (df : Table) : Table :=
  filterItems df energy_filter_items

/-- The fuel columns that actually occur in the wide table, in melt order. -/
def energy_value_vars (df : Table) : List String :=
  (energy_wide df).cols.filter (fun c => c ∉ energy_id_vars)

/-- `energy_long_df` of `load_data`: filter, melt, dropna on value and
geographic key. -/
def energy_long_df (df : Table) : Table :=
  dropna (melt (energy_wide df) energy_id_vars ("source") ("value")) [("value"), ("iso_code")]

/-! ### Concrete example tables used by witnesses and counterexamples -/

/-- A share-pair table: per_gop 0.55, per_dem 0.45. -/
def c1_share_table : Table :=
  { cols := ["county_fips", "per_gop", "per_dem"],
    rows := [[("county_fips", Cell.str ("06037")), ("per_gop", Cell.num (55 / 100)),
              ("per_dem", Cell.num (45 / 100))]] }

/-- A table with none of the margin source columns. -/
def c1_bare_table : Table :=
  { cols := ["county_fips", "population"],
    rows := [[("county_fips", Cell.str ("06037")), ("population", Cell.int 100)]] }

/-- A pre-computed margin column holding a fractional value. -/
def c2_frac_table : Table :=
  { cols := ["margin"], rows := [[("margin", Cell.num (-(12 / 100)))]] }

/-- A pre-computed margin column holding a percentage-scale value. -/
def c2_pct_table : Table :=
  { cols := ["margin"], rows := [[("margin", Cell.num (-12))]] }

/-- Columns b then a, in that physical order. -/
def c3_table_ba : Table := { cols := ["b", "a"], rows := [] }

/-- Columns a then b, in that physical order. -/
def c3_table_ab : Table := { cols := ["a", "b"], rows := [] }

/-- 2024-side table with keys A, B, C and share columns. -/
def c4_left_table : Table :=
  { cols := ["county_fips", "per_gop", "per_dem"],
    rows := [[("county_fips", Cell.str ("0000A")), ("per_gop", Cell.num (6 / 10)),
              ("per_dem", Cell.num (4 / 10))],
             [("county_fips", Cell.str ("0000B")), ("per_gop", Cell.num (3 / 10)),
              ("per_dem", Cell.num (7 / 10))],
             [("county_fips", Cell.str ("0000C")), ("per_gop", Cell.num (5 / 10)),
              ("per_dem", Cell.num (5 / 10))]] }

/-- 2020-side table with keys B, C, D and share columns. -/
def c4_right_table : Table :=
  { cols := ["county_fips", "per_gop", "per_dem"],
    rows := [[("county_fips", Cell.str ("0000B")), ("per_gop", Cell.num (2 / 10)),
              ("per_dem", Cell.num (8 / 10))],
             [("county_fips", Cell.str ("0000C")), ("per_gop", Cell.num (6 / 10)),
              ("per_dem", Cell.num (4 / 10))],
             [("county_fips", Cell.str ("0000D")), ("per_gop", Cell.num (9 / 10)),
              ("per_dem", Cell.num (1 / 10))]] }

/-- A year table holding nothing but an (already normalized) key. -/
def c4_bare_left : Table :=
  { cols := ["GEOID"], rows := [[("GEOID", Cell.str ("00001"))]] }

/-- The matching bare table for the other year. -/
def c4_bare_right : Table :=
  { cols := ["GEOID"], rows := [[("GEOID", Cell.str ("00001"))]] }

/-- The normalized left side of the example join. -/
def c4_left_norm : Table := zfillCol c4_left_table ("county_fips")

/-- The normalized and column-dropped right side of the example join. -/
def c4_right_norm : Table := dropCols (zfillCol c4_right_table ("county_fips")) tab2_drop_cols

/-- The merged example tables. -/
def c4_merged : Table := tab2_merged c4_left_table c4_right_table ("county_fips") ("county_fips")

/-- A vote-count table: 600 against 400, no total column. -/
def c6_votes_table : Table :=
  { cols := ["trump_votes", "biden_votes"],
    rows := [[("trump_votes", Cell.int 600), ("biden_votes", Cell.int 400)]] }

/-- A joined table carrying only a margin column, for the winner label. -/
def c7_margin_table : Table :=
  { cols := ["per_point_diff_2024"],
    rows := [[("per_point_diff_2024", Cell.num (32 / 10))],
             [("per_point_diff_2024", Cell.num (-(1 / 10)))]] }

/-- A joined table with no usable winner field at all. -/
def c7_bare_table : Table :=
  { cols := ["county_fips"], rows := [[("county_fips", Cell.str ("00001"))]] }

/-- A wide energy table: one row, five fuel columns, one null value. -/
def c8_wide_table : Table :=
  { cols := ["country", "year", "iso_code", "coal", "gas", "hydro", "solar", "wind"],
    rows := [[("country", Cell.str ("X")), ("year", Cell.int 2000), ("iso_code", Cell.str ("XX")),
              ("coal", Cell.num 1), ("gas", Cell.null), ("hydro", Cell.num 3),
              ("solar", Cell.num 4), ("wind", Cell.num 5)]] }

/-- The first long-format row produced from `c8_wide_table`. -/
def c8_first_long_row : Row :=
  [("country", Cell.str ("X")), ("year", Cell.int 2000), ("iso_code", Cell.str ("XX")),
   ("population", Cell.null), ("gdp", Cell.null), ("source", Cell.str ("coal")),
   ("value", Cell.num 1)]

/-- A vote-count table whose rows have null or zero counts. -/
def c9_zero_table : Table :=
  { cols := ["trump_votes", "biden_votes"],
    rows := [[("trump_votes", Cell.null), ("biden_votes", Cell.null)],
             [("trump_votes", Cell.int 0), ("biden_votes", Cell.int 0)]] }

/-- A share-pair table with fractional GOP shares and huge DEM values. -/
def c10_table_big_dem : Table :=
  { cols := ["per_gop", "per_dem"],
    rows := [[("per_gop", Cell.num (55 / 100)), ("per_dem", Cell.num 4500)]] }

/-- The same GOP column with a fractional DEM column. -/
def c10_table_small_dem : Table :=
  { cols := ["per_gop", "per_dem"],
    rows := [[("per_gop", Cell.num (55 / 100)), ("per_dem", Cell.num (45 / 100))]] }

/-! ### Helper lemmas about rows, columns and table updates -/

theorem alookup_append_left {c : String} {v : Cell} {a : Row} (b : Row)
    (h : alookup c a = some v) : alookup c (a ++ b) = some v := by
  induction a with
  | nil => simp [alookup] at h
  | cons p r ih =>
    obtain ⟨k, w⟩ := p
    simp only [alookup, List.cons_append] at h ⊢
    by_cases hk : k = c
    · simpa [hk] using h
    · simp only [hk, if_false] at h ⊢
      exact ih h

theorem alookup_filter_ne {m n : String} (h : m ≠ n) (r : Row) :
    alookup m (r.filter (fun p => p.1 ≠ n)) = alookup m r := by
  induction r with
  | nil => rfl
  | cons p rest ih =>
    obtain ⟨k, w⟩ := p
    rw [List.filter_cons]
    by_cases hk : k = n
    · rw [if_neg (by simp [hk]), ih]
      have hkm : k ≠ m := by rw [hk]; exact fun e => h e.symm
      simp [alookup, hkm]
    · rw [if_pos (by simp [hk])]
      simp only [alookup]
      by_cases hkm : k = m
      · simp [hkm]
      · rw [if_neg hkm, if_neg hkm, ih]

theorem getCell_setCell_self (r : Row) (n : String) (v : Cell) :
    getCell (setCell r n v) n = v := by
  simp [getCell, setCell, alookup]

theorem getCell_setCell_ne {m n : String} (h : m ≠ n) (r : Row) (v : Cell) :
    getCell (setCell r n v) m = getCell r m := by
  have hnm : n ≠ m := h.symm
  simp only [getCell, setCell, alookup, hnm, if_false]
  rw [alookup_filter_ne h]

theorem getCol_length (df : Table) (c : String) :
    (getCol df c).length = df.rows.length := by
  simp [getCol]

theorem addCol_rows_length (df : Table) (n : String) (vals : List Cell)
    (h : vals.length = df.rows.length) :
    (addCol df n vals).rows.length = df.rows.length := by
  simp [addCol, List.length_zipWith, h]

theorem mem_addCol_cols_self (df : Table) (n : String) (vals : List Cell) :
    n ∈ (addCol df n vals).cols := by
  simp only [addCol]
  by_cases h : n ∈ df.cols
  · simp [h]
  · simp [h]

theorem mem_addCol_cols_of {df : Table} {c : String} (n : String) (vals : List Cell)
    (h : c ∈ df.cols) : c ∈ (addCol df n vals).cols := by
  simp only [addCol]
  by_cases hn : n ∈ df.cols
  · simpa [hn] using h
  · simp [hn, List.mem_append, h]

theorem list_getElem?_zipWith {α : Type} (f : α → α → α) (as bs : List α) (i : Nat) :
    (List.zipWith f as bs)[i]? =
      match as[i]?, bs[i]? with
      | some a, some b => some (f a b)
      | _, _ => none := by
  induction as generalizing bs i with
  | nil => cases bs <;> simp
  | cons a as ih =>
    cases bs with
    | nil => simp
    | cons b bs =>
      cases i with
      | zero => simp
      | succ j => simpa using ih bs j

theorem zip3With_getElem? (f : Cell → Cell → Cell → Cell) (as bs cs : List Cell) (i : Nat) :
    (zip3With f as bs cs)[i]? =
      match as[i]?, bs[i]?, cs[i]? with
      | some a, some b, some c => some (f a b c)
      | _, _, _ => none := by
  induction as generalizing bs cs i with
  | nil => cases bs <;> cases cs <;> simp [zip3With]
  | cons a as ih =>
    cases bs with
    | nil => simp [zip3With]
    | cons b bs =>
      cases cs with
      | nil => simp [zip3With]
      | cons c cs =>
        cases i with
        | zero => simp [zip3With]
        | succ j => simpa [zip3With] using ih bs cs j

theorem zip3With_length (f : Cell → Cell → Cell → Cell) (as bs cs : List Cell) :
    (zip3With f as bs cs).length = min (min as.length bs.length) cs.length := by
  induction as generalizing bs cs with
  | nil => cases bs <;> cases cs <;> simp [zip3With]
  | cons a as ih =>
    cases bs with
    | nil => simp [zip3With]
    | cons b bs =>
      cases cs with
      | nil => simp [zip3With]
      | cons c cs => simp [zip3With, ih, Nat.succ_min_succ]

theorem map_getCell_zipWith_setCell_self (n : String) (rs : List Row) (vals : List Cell)
    (h : vals.length = rs.length) :
    (List.zipWith (fun r v => setCell r n v) rs vals).map (fun r => getCell r n) = vals := by
  induction rs generalizing vals with
  | nil =>
    cases vals with
    | nil => rfl
    | cons v vs => simp at h
  | cons r rs ih =>
    cases vals with
    | nil => simp at h
    | cons v vs =>
      simp only [List.zipWith_cons_cons, List.map_cons, getCell_setCell_self]
      rw [ih vs (by simpa using h)]

theorem getCol_addCol_self (df : Table) (n : String) (vals : List Cell)
    (h : vals.length = df.rows.length) :
    getCol (addCol df n vals) n = vals := by
  simp only [getCol, addCol]
  exact map_getCell_zipWith_setCell_self n df.rows vals h

theorem map_getCell_zipWith_setCell_ne {m n : String} (hmn : m ≠ n) (rs : List Row)
    (vals : List Cell) (h : vals.length = rs.length) :
    (List.zipWith (fun r v => setCell r n v) rs vals).map (fun r => getCell r m) =
      rs.map (fun r => getCell r m) := by
  induction rs generalizing vals with
  | nil => cases vals <;> rfl
  | cons r rs ih =>
    cases vals with
    | nil => simp at h
    | cons v vs =>
      simp only [List.zipWith_cons_cons, List.map_cons, getCell_setCell_ne hmn]
      rw [ih vs (by simpa using h)]

theorem getCol_addCol_ne {m n : String} (df : Table) (vals : List Cell)
    (hmn : m ≠ n) (h : vals.length = df.rows.length) :
    getCol (addCol df n vals) m = getCol df m := by
  simp only [getCol, addCol]
  exact map_getCell_zipWith_setCell_ne hmn df.rows vals h

theorem sharePairMargin_length (df : Table) (t b : String) :
    (sharePairMargin df t b).length = df.rows.length := by
  simp [sharePairMargin, List.length_zipWith, getCol_length]

theorem preMarginVals_length (df : Table) (mcol : String) :
    (preMarginVals df mcol).length = df.rows.length := by
  unfold preMarginVals
  split <;> simp [getCol_length]

theorem preMarginVals_eq (df : Table) (mcol : String) :
    preMarginVals df mcol =
      if maxLE (colMaxAbs ((getCol df mcol).map cellToFloat)) (3 / 2)
      then ((getCol df mcol).map cellToFloat).map (cellMulConst 100)
      else (getCol df mcol).map cellToFloat := rfl

theorem voteCountMargin_length (df : Table) (t b tot : String) :
    (voteCountMargin df t b tot).length = df.rows.length := by
  simp [voteCountMargin, zip3With_length, getCol_length]

theorem totalsFallback_length (df : Table) (t b : String) :
    (totalsFallback df t b).length = df.rows.length := by
  simp [totalsFallback, List.length_zipWith, getCol_length]

theorem string_mk_length (l : List Char) : (String.mk l).length = l.length := rfl

theorem zfillAux_length (width : Nat) (l : List Char) (h : l.length ≤ width) :
    (zfillAux width l).length = width := by
  unfold zfillAux
  split
  · omega
  · split
    · simp
    · split <;>
        · simp only [List.length_cons, List.length_append, List.length_replicate] at h ⊢
          omega

theorem zfillAux_of_ge (width : Nat) (l : List Char) (h : width ≤ l.length) :
    zfillAux width l = l := by
  unfold zfillAux
  rw [if_pos h]

theorem zfill_length (width : Nat) (s : String) (h : s.length ≤ width) :
    (zfill width s).length = width := by
  rw [zfill, string_mk_length]
  exact zfillAux_length width s.data h

theorem zfill_of_length_ge (width : Nat) (s : String) (h : width ≤ s.length) :
    zfill width s = s := by
  rw [zfill, zfillAux_of_ge width s.data h]

theorem pick_first_eq_find (df : Table) (cands : List String) :
    pick_first df cands = cands.find? (fun c => decide (c ∈ df.cols)) := by
  induction cands with
  | nil => rfl
  | cons c rest ih =>
    by_cases h : c ∈ df.cols <;> simp [pick_first, List.find?, h, ih]

theorem pick_first_none_iff (df : Table) (cands : List String) :
    pick_first df cands = none ↔ ∀ c ∈ cands, c ∉ df.cols := by
  induction cands with
  | nil => simp [pick_first]
  | cons c rest ih =>
    by_cases h : c ∈ df.cols <;> simp [pick_first, h, ih]

theorem pick_first_mem {df : Table} {cands : List String} {c : String}
    (h : pick_first df cands = some c) : c ∈ cands ∧ c ∈ df.cols := by
  induction cands with
  | nil => simp [pick_first] at h
  | cons c0 rest ih =>
    by_cases h0 : c0 ∈ df.cols
    · simp only [pick_first, h0, if_pos] at h
      obtain rfl : c0 = c := by simpa using h
      exact ⟨by simp, h0⟩
    · simp only [pick_first, h0, if_false] at h
      obtain ⟨h1, h2⟩ := ih h
      exact ⟨by simp [h1], h2⟩

theorem pick_first_first_match {df : Table} {cands : List String} {c : String}
    (h : pick_first df cands = some c) :
    c ∈ df.cols ∧ ∃ i : Nat, cands[i]? = some c ∧
      ∀ j : Nat, j < i → ∀ c', cands[j]? = some c' → c' ∉ df.cols := by
  induction cands with
  | nil => simp [pick_first] at h
  | cons c0 rest ih =>
    by_cases h0 : c0 ∈ df.cols
    · simp only [pick_first, h0, if_pos] at h
      obtain rfl : c0 = c := by simpa using h
      exact ⟨h0, 0, by simp, by omega⟩
    · simp only [pick_first, h0, if_false] at h
      obtain ⟨hc, i, hi, hmin⟩ := ih h
      refine ⟨hc, i + 1, by simpa using hi, ?_⟩
      intro j hj c' hj'
      cases j with
      | zero =>
        obtain rfl : c0 = c' := by simpa using hj'
        exact h0
      | succ j0 => exact hmin j0 (by omega) c' (by simpa using hj')

theorem pick_first_cols_congr (df df2 : Table) (cands : List String)
    (h : ∀ c, c ∈ df.cols ↔ c ∈ df2.cols) :
    pick_first df cands = pick_first df2 cands := by
  induction cands with
  | nil => rfl
  | cons c rest ih =>
    by_cases hc : c ∈ df.cols
    · simp [pick_first, hc, (h c).mp hc]
    · have hc2 : c ∉ df2.cols := fun hx => hc ((h c).mpr hx)
      simp [pick_first, hc, hc2, ih]

theorem winner_2024_vals_length (df : Table) :
    (winner_2024_vals df).length = df.rows.length := by
  unfold winner_2024_vals
  cases pick_first df p_gop_24_cands with
  | some g =>
    cases pick_first df p_dem_24_cands with
    | some d => simp
    | none => by_cases hp : ("per_point_diff_2024") ∈ df.cols <;> simp [hp]
  | none =>
    cases pick_first df p_dem_24_cands with
    | some d => by_cases hp : ("per_point_diff_2024") ∈ df.cols <;> simp [hp]
    | none => by_cases hp : ("per_point_diff_2024") ∈ df.cols <;> simp [hp]

theorem getElem?_lt_length {α : Type} {l : List α} {i : Nat} {a : α}
    (h : l[i]? = some a) : i < l.length := by
  by_contra hlt
  rw [List.getElem?_eq_none (by omega)] at h
  exact Option.noConfusion h

theorem toRat_null : Cell.toRat Cell.null = none := rfl

theorem toRat_int (n : Int) : (Cell.int n).toRat = some (n : ℚ) := rfl

theorem toRat_num (q : ℚ) : (Cell.num q).toRat = some q := rfl

theorem toRat_str (s : String) : (Cell.str s).toRat = none := rfl

theorem cellToFloat_toRat (c : Cell) : (cellToFloat c).toRat = c.toRat := by
  cases c <;> rfl

theorem filterMap_toRat_map_cellToFloat (l : List Cell) :
    (l.map cellToFloat).filterMap Cell.toRat = l.filterMap Cell.toRat := by
  induction l with
  | nil => rfl
  | cons c cs ih => simp only [List.map_cons, List.filterMap_cons, cellToFloat_toRat, ih]

theorem colMaxAbs_map_cellToFloat (l : List Cell) :
    colMaxAbs (l.map cellToFloat) = colMaxAbs l := by
  unfold colMaxAbs
  rw [filterMap_toRat_map_cellToFloat]

theorem cellFillna0_of_toRat {a : Cell} {x : ℚ} (h : a.toRat = some x) :
    cellFillna0 a = a := by
  cases a <;> simp_all [Cell.toRat, cellFillna0]

theorem cellAdd_eq {a b : Cell} {x y : ℚ} (hx : a.toRat = some x) (hy : b.toRat = some y) :
    cellAdd a b = .num (x + y) := by
  unfold cellAdd
  rw [hx, hy]

/-! ### Claim theorems

The rational operations of the standard library are marked
irreducible; inside this section they are made semireducible again so
that concrete tables can be evaluated by `decide`. -/

section ClaimTheorems

attribute [local semireducible] Rat.add Rat.mul Rat.sub Rat.inv Rat.ofScientific

/-- C3: for every table and every ordered candidate list, the Column
Resolver `pick_first` returns the first candidate in candidate-list
order that is present in the table's column set (it coincides with
`List.find?` over membership), and the sentinel `none` when no
candidate is present; the result depends only on which names are in
the column set, not on the table's physical column order.  The
embedded resolver is a total pure function of the table, so it mutates
nothing and cannot raise. -/
theorem pick_first_resolver_spec (df : Table) (cands : List String) :
    pick_first df cands = cands.find? (fun c => decide (c ∈ df.cols))
    ∧ (pick_first df cands = none ↔ ∀ c ∈ cands, c ∉ df.cols)
    ∧ (∀ c, pick_first df cands = some c →
        c ∈ df.cols ∧ ∃ i : Nat, cands[i]? = some c ∧
          ∀ j : Nat, j < i → ∀ c', cands[j]? = some c' → c' ∉ df.cols)
    ∧ (∀ df2 : Table, (∀ c, c ∈ df.cols ↔ c ∈ df2.cols) →
        pick_first df cands = pick_first df2 cands) :=
  ⟨pick_first_eq_find df cands, pick_first_none_iff df cands,
   fun _ h => pick_first_first_match h,
   fun df2 h => pick_first_cols_congr df df2 cands h⟩

/-- Witness for C3: with physical column order b, a the resolver still
returns the higher-priority candidate a, agreeing with the table whose
physical order is a, b; with no matching candidate it returns the
sentinel. -/
theorem pick_first_resolver_spec_witness :
    pick_first c3_table_ba ["a", "b"] = pick_first c3_table_ab ["a", "b"]
    ∧ pick_first c3_table_ba ["a", "b"] = some ("a")
    ∧ pick_first c3_table_ab ["z"] = none :=
  ⟨(pick_first_resolver_spec c3_table_ba ["a", "b"]).2.2.2 c3_table_ab
      (by intro c; constructor <;> (intro h; simp only [c3_table_ba, c3_table_ab,
        List.mem_cons, List.not_mem_nil, or_false] at h ⊢; tauto)),
   by decide, by decide⟩

/-- C5 counterexample: the normalizer does not force width exactly 5
for every value; the six-digit code 123456 passes through with
width 6. -/
theorem geo_key_width_counterexample :
    safe_to_str_zfill [Cell.int 123456] 5 = [("123456")]
    ∧ (zfill 5 (cellToStr (Cell.int 123456))).length = 6 := by
  constructor <;> decide

/-- C5 (amended): the Geographic Key Normalizer maps each cell to the
zero-padded form of its string rendering; the result has width exactly
5 whenever the rendered string has at most 5 characters (in particular
the integer 6037 and the string 06037 both normalize to 06037), while
longer strings pass through unchanged instead of being forced to
width 5. -/
theorem safe_to_str_zfill_spec (cells : List Cell) (i : Nat) (c : Cell)
    (h : cells[i]? = some c) :
    (safe_to_str_zfill cells 5)[i]? = some (zfill 5 (cellToStr c))
    ∧ ((cellToStr c).length ≤ 5 → (zfill 5 (cellToStr c)).length = 5)
    ∧ (5 ≤ (cellToStr c).length → zfill 5 (cellToStr c) = cellToStr c) := by
  refine ⟨?_, fun hle => zfill_length 5 _ hle, fun hge => zfill_of_length_ge 5 _ hge⟩
  simp [safe_to_str_zfill, h]

/-- Witness for C5: the integer 6037 and the string 06037 both
normalize to the five-character string 06037. -/
theorem safe_to_str_zfill_spec_witness :
    (safe_to_str_zfill [Cell.int 6037, Cell.str ("06037")] 5)[0]? =
      some (zfill 5 (cellToStr (Cell.int 6037)))
    ∧ safe_to_str_zfill [Cell.int 6037, Cell.str ("06037")] 5 = [("06037"), ("06037")] :=
  ⟨(safe_to_str_zfill_spec [Cell.int 6037, Cell.str ("06037")] 0 (Cell.int 6037) (by decide)).1,
   by decide⟩

/-- C10: the share-pair scale factor is a function of the A-share
(GOP) column alone: two tables agreeing on that column's values get
the same factor, and overwriting the B-share column with arbitrary
values never triggers or suppresses the rescaling.  `sharePairScale`
is exactly the factor used by `sharePairMargin`, which both tab 1 and
the two tab-2 margin blocks apply. -/
theorem sharePairScale_gop_only (df1 df2 : Table) (t b : String) (vs : List Cell) :
    (getCol df1 t = getCol df2 t → sharePairScale df1 t = sharePairScale df2 t)
    ∧ (b ≠ t → vs.length = df1.rows.length →
        sharePairScale (addCol df1 b vs) t = sharePairScale df1 t) := by
  constructor
  · intro h
    unfold sharePairScale
    rw [h]
  · intro hbt hlen
    unfold sharePairScale
    rw [getCol_addCol_ne df1 vs (Ne.symm hbt) hlen]

/-- Witness for C10: a fractional GOP column fixes the factor at 100
whether the DEM column holds fractional values or values in the
thousands. -/
theorem sharePairScale_gop_only_witness :
    sharePairScale c10_table_small_dem ("per_gop") = sharePairScale c10_table_big_dem ("per_gop")
    ∧ sharePairScale c10_table_big_dem ("per_gop") = 100 :=
  ⟨(sharePairScale_gop_only c10_table_small_dem c10_table_big_dem ("per_gop") ("per_dem") []).1
      (by decide),
   by decide⟩

/-- C2: in the share-pair shape the factor is 100 exactly when the
observed maximum absolute value of the inspected (GOP) column is
≤ 1.5 and 1 otherwise (an all-missing column also gives 1, matching
the false NaN comparison of the source); in the pre-computed-margin
shape each numeric value q becomes q×100 when the column maximum is
≤ 1.5 and stays q otherwise. -/
theorem margin_rescale_iff (df : Table) (t b mcol : String) :
    (∀ mx, colMaxAbs (getCol df t) = some mx →
      ((mx ≤ 3 / 2 → sharePairScale df t = 100) ∧ (¬mx ≤ 3 / 2 → sharePairScale df t = 1)))
    ∧ (colMaxAbs (getCol df t) = none → sharePairScale df t = 1)
    ∧ (∀ i : Nat, ∀ cx cy : Cell, ∀ x y : ℚ,
        (getCol df t)[i]? = some cx → (getCol df b)[i]? = some cy →
        cx.toRat = some x → cy.toRat = some y →
        (sharePairMargin df t b)[i]? = some (Cell.num ((x - y) * sharePairScale df t)))
    ∧ (∀ mx : ℚ, ∀ i : Nat, ∀ c : Cell, ∀ q : ℚ,
        colMaxAbs (getCol df mcol) = some mx →
        (getCol df mcol)[i]? = some c → c.toRat = some q →
        (preMarginVals df mcol)[i]? =
          some (if mx ≤ 3 / 2 then Cell.num (q * 100) else Cell.num q)) := by
  refine ⟨?_, ?_, ?_, ?_⟩
  · intro mx hmx
    unfold sharePairScale maxLE
    rw [hmx]
    constructor <;> intro hle <;> simp [hle]
  · intro hnone
    unfold sharePairScale maxLE
    rw [hnone]
    simp
  · intro i cx cy x y hcx hcy hx hy
    unfold sharePairMargin
    rw [list_getElem?_zipWith, hcx, hcy]
    simp [cellSub, cellMulConst, hx, hy, toRat_num]
  · intro mx i c q hmx hc hq
    rw [preMarginVals_eq, colMaxAbs_map_cellToFloat, hmx]
    unfold maxLE
    by_cases hle : mx ≤ 3 / 2
    · rw [if_pos (by simpa using hle), if_pos hle]
      simp only [List.getElem?_map, hc, Option.map_some]
      simp [cellToFloat, cellMulConst, hq, toRat_num]
    · rw [if_neg (by simpa using hle), if_neg hle]
      simp only [List.getElem?_map, hc, Option.map_some]
      simp [cellToFloat, hq]

/-- Witness for C2: a pre-computed margin of -0.12 is rescaled to
-12.0, while one of -12.0 passes through unchanged. -/
theorem margin_rescale_iff_witness :
    (preMarginVals c2_frac_table ("margin"))[0]? = some (Cell.num (-12))
    ∧ (preMarginVals c2_pct_table ("margin"))[0]? = some (Cell.num (-12)) := by
  constructor
  · have h := (margin_rescale_iff c2_frac_table ("margin") ("margin") ("margin")).2.2.2
      (12 / 100) 0 (Cell.num (-(12 / 100))) (-(12 / 100)) (by decide) (by decide) (by decide)
    rw [h]
    decide
  · have h := (margin_rescale_iff c2_pct_table ("margin") ("margin") ("margin")).2.2.2
      12 0 (Cell.num (-12)) (-12) (by decide) (by decide) (by decide)
    rw [h]
    decide

/-- C9: in the vote-count shape with no explicit total column, a row
whose two counts are both missing or both zero gets the derived total
0, and the margin computation then divides by that zero total; in this
embedding the division is guarded and yields the missing value, and
the concrete table below shows the zero-denominator branch is
reachable (its second row reaches the guard with total 0). -/
theorem zero_total_guard_reachable :
    tab1_margin c9_zero_table =
      .ok (.voteCounts ("trump_votes") ("biden_votes") ("__total_votes__"))
        (tab1_fallback_table c9_zero_table ("trump_votes") ("biden_votes"))
    ∧ getCol (tab1_fallback_table c9_zero_table ("trump_votes") ("biden_votes"))
        ("__total_votes__") = [Cell.num 0, Cell.num 0]
    ∧ getCol (tab1_fallback_table c9_zero_table ("trump_votes") ("biden_votes"))
        ("margin_pct") = [Cell.null, Cell.null]
    ∧ voteMarginCell (Cell.int 0) (Cell.int 0) (Cell.num 0) = Cell.null := by
  refine ⟨by decide, by decide, by decide, by decide⟩

/-- C1: for every input table, the tab-1 Margin Deriver tries exactly
the four source shapes in fixed priority order — share pair, then
pre-computed margin column, then raw vote counts, then failure — and
`margin_pct` is computed from the first shape whose required columns
resolve; when none resolves, the outcome is the error naming the
missing fields and listing the available columns, and no margin column
is produced (the `err` outcome carries no derived table). -/
theorem tab1_margin_priority (df : Table) :
    (∀ t b, pick_first df trump_pct_cands = some t →
      pick_first df biden_pct_cands = some b →
      tab1_margin df = .ok (.sharePair t b) (addCol df ("margin_pct") (sharePairMargin df t b))
      ∧ ("margin_pct") ∈ (addCol df ("margin_pct") (sharePairMargin df t b)).cols)
    ∧ ((pick_first df trump_pct_cands = none ∨ pick_first df biden_pct_cands = none) →
      ∀ m, pick_first df pre_margin_cands = some m →
        tab1_margin df = .ok (.preMargin m) (addCol df ("margin_pct") (preMarginVals df m))
        ∧ ("margin_pct") ∈ (addCol df ("margin_pct") (preMarginVals df m)).cols)
    ∧ ((pick_first df trump_pct_cands = none ∨ pick_first df biden_pct_cands = none) →
      pick_first df pre_margin_cands = none →
      ∀ tv bv, pick_first df trump_votes_cands = some tv →
        pick_first df biden_votes_cands = some bv →
        ∃ tc out, tab1_margin df = .ok (.voteCounts tv bv tc) out ∧ ("margin_pct") ∈ out.cols)
    ∧ ((pick_first df trump_pct_cands = none ∨ pick_first df biden_pct_cands = none) →
      pick_first df pre_margin_cands = none →
      (pick_first df trump_votes_cands = none ∨ pick_first df biden_votes_cands = none) →
      tab1_margin df = .err (tab1_error_msg df)) := by
  refine ⟨?_, ?_, ?_, ?_⟩
  · intro t b hT hB
    unfold tab1_margin
    rw [hT, hB]
    exact ⟨rfl, mem_addCol_cols_self df _ _⟩
  · intro hTB m hm
    unfold tab1_margin
    cases hT : pick_first df trump_pct_cands with
    | some t =>
      cases hB : pick_first df biden_pct_cands with
      | some b => rcases hTB with h | h <;> simp_all
      | none =>
        rw [hm]
        exact ⟨rfl, mem_addCol_cols_self df _ _⟩
    | none =>
      cases hB : pick_first df biden_pct_cands with
      | some b =>
        rw [hm]
        exact ⟨rfl, mem_addCol_cols_self df _ _⟩
      | none =>
        rw [hm]
        exact ⟨rfl, mem_addCol_cols_self df _ _⟩
  · intro hTB hPre tv bv hTV hBV
    unfold tab1_margin
    cases hT : pick_first df trump_pct_cands with
    | some t =>
      cases hB : pick_first df biden_pct_cands with
      | some b => rcases hTB with h | h <;> simp_all
      | none =>
        rw [hPre, hTV, hBV]
        cases hTot : pick_first df total_votes_cands with
        | some tc => exact ⟨tc, _, rfl, mem_addCol_cols_self df _ _⟩
        | none =>
          refine ⟨("__total_votes__"), tab1_fallback_table df tv bv, rfl, ?_⟩
          unfold tab1_fallback_table
          exact mem_addCol_cols_self _ _ _
    | none =>
      cases hB : pick_first df biden_pct_cands with
      | some b =>
        rw [hPre, hTV, hBV]
        cases hTot : pick_first df total_votes_cands with
        | some tc => exact ⟨tc, _, rfl, mem_addCol_cols_self df _ _⟩
        | none =>
          refine ⟨("__total_votes__"), tab1_fallback_table df tv bv, rfl, ?_⟩
          unfold tab1_fallback_table
          exact mem_addCol_cols_self _ _ _
      | none =>
        rw [hPre, hTV, hBV]
        cases hTot : pick_first df total_votes_cands with
        | some tc => exact ⟨tc, _, rfl, mem_addCol_cols_self df _ _⟩
        | none =>
          refine ⟨("__total_votes__"), tab1_fallback_table df tv bv, rfl, ?_⟩
          unfold tab1_fallback_table
          exact mem_addCol_cols_self _ _ _
  · intro hTB hPre hVotes
    unfold tab1_margin
    cases hT : pick_first df trump_pct_cands with
    | some t =>
      cases hB : pick_first df biden_pct_cands with
      | some b => rcases hTB with h | h <;> simp_all
      | none =>
        rw [hPre]
        cases hTV : pick_first df trump_votes_cands with
        | some tv =>
          cases hBV : pick_first df biden_votes_cands with
          | some bv => rcases hVotes with h | h <;> simp_all
          | none => rfl
        | none => rfl
    | none =>
      cases hB : pick_first df biden_pct_cands with
      | some b =>
        rw [hPre]
        cases hTV : pick_first df trump_votes_cands with
        | some tv =>
          cases hBV : pick_first df biden_votes_cands with
          | some bv => rcases hVotes with h | h <;> simp_all
          | none => rfl
        | none => rfl
      | none =>
        rw [hPre]
        cases hTV : pick_first df trump_votes_cands with
        | some tv =>
          cases hBV : pick_first df biden_votes_cands with
          | some bv => rcases hVotes with h | h <;> simp_all
          | none => rfl
        | none => rfl

/-- Witness for C1: a share-pair table takes the first shape, and a
table with none of the candidate columns ends in the error outcome. -/
theorem tab1_margin_priority_witness :
    tab1_margin c1_share_table =
      .ok (.sharePair ("per_gop") ("per_dem"))
        (addCol c1_share_table ("margin_pct")
          (sharePairMargin c1_share_table ("per_gop") ("per_dem")))
    ∧ tab1_margin c1_bare_table = .err (tab1_error_msg c1_bare_table) :=
  ⟨((tab1_margin_priority c1_share_table).1 ("per_gop") ("per_dem") (by decide) (by decide)).1,
   (tab1_margin_priority c1_bare_table).2.2.2 (Or.inl (by decide)) (by decide)
     (Or.inl (by decide))⟩

/-- C6: in the vote-count shape the margin is (A − B) / total × 100,
where the total is the resolved explicit total-votes column when one
resolves and otherwise the added row-wise `fillna(0)` sum of the two
count columns; with counts x and y present and x + y nonzero the
margin row is (x − y) / (x + y) × 100. -/
theorem vote_count_margin_spec (df : Table) (tv bv : String)
    (hTB : pick_first df trump_pct_cands = none ∨ pick_first df biden_pct_cands = none)
    (hPre : pick_first df pre_margin_cands = none)
    (hTV : pick_first df trump_votes_cands = some tv)
    (hBV : pick_first df biden_votes_cands = some bv) :
    (∀ tc, pick_first df total_votes_cands = some tc →
      tab1_margin df =
        .ok (.voteCounts tv bv tc) (addCol df ("margin_pct") (voteCountMargin df tv bv tc)))
    ∧ (pick_first df total_votes_cands = none →
      tab1_margin df = .ok (.voteCounts tv bv ("__total_votes__")) (tab1_fallback_table df tv bv)
      ∧ getCol (tab1_fallback_table df tv bv) ("__total_votes__") = totalsFallback df tv bv
      ∧ (∀ i : Nat, ∀ a b : Cell, ∀ x y : ℚ,
          (getCol df tv)[i]? = some a → (getCol df bv)[i]? = some b →
          a.toRat = some x → b.toRat = some y → x + y ≠ 0 →
          (getCol (tab1_fallback_table df tv bv) ("margin_pct"))[i]? =
            some (Cell.num ((x - y) / (x + y) * 100)))) := by
  have htv_ne : tv ≠ ("__total_votes__") := by
    have h1 := (pick_first_mem hTV).1
    have : ∀ c ∈ trump_votes_cands, c ≠ ("__total_votes__") := by decide
    exact this tv h1
  have hbv_ne : bv ≠ ("__total_votes__") := by
    have h1 := (pick_first_mem hBV).1
    have : ∀ c ∈ biden_votes_cands, c ≠ ("__total_votes__") := by decide
    exact this bv h1
  constructor
  · intro tc hTot
    unfold tab1_margin
    cases hT : pick_first df trump_pct_cands with
    | some t =>
      cases hB : pick_first df biden_pct_cands with
      | some b => rcases hTB with h | h <;> simp_all
      | none => rw [hPre, hTV, hBV, hTot]
    | none =>
      cases hB : pick_first df biden_pct_cands with
      | some b => rw [hPre, hTV, hBV, hTot]
      | none => rw [hPre, hTV, hBV, hTot]
  · intro hTot
    have heq : tab1_margin df =
        .ok (.voteCounts tv bv ("__total_votes__")) (tab1_fallback_table df tv bv) := by
      unfold tab1_margin
      cases hT : pick_first df trump_pct_cands with
      | some t =>
        cases hB : pick_first df biden_pct_cands with
        | some b => rcases hTB with h | h <;> simp_all
        | none => rw [hPre, hTV, hBV, hTot]
      | none =>
        cases hB : pick_first df biden_pct_cands with
        | some b => rw [hPre, hTV, hBV, hTot]
        | none => rw [hPre, hTV, hBV, hTot]
    have hlen2 : (addCol df ("__total_votes__") (totalsFallback df tv bv)).rows.length =
        df.rows.length :=
      addCol_rows_length df _ _ (totalsFallback_length df tv bv)
    have htot_col : getCol (tab1_fallback_table df tv bv) ("__total_votes__") =
        totalsFallback df tv bv := by
      unfold tab1_fallback_table
      rw [getCol_addCol_ne _ _ (by decide)
        (by rw [voteCountMargin_length, hlen2]),
        getCol_addCol_self df _ _ (totalsFallback_length df tv bv)]
    refine ⟨heq, htot_col, ?_⟩
    intro i a b x y ha hb hx hy hxy
    have hmargin_col : getCol (tab1_fallback_table df tv bv) ("margin_pct") =
        voteCountMargin (addCol df ("__total_votes__") (totalsFallback df tv bv)) tv bv
          ("__total_votes__") := by
      unfold tab1_fallback_table
      exact getCol_addCol_self _ _ _ (by rw [voteCountMargin_length, hlen2])
    rw [hmargin_col]
    unfold voteCountMargin
    rw [zip3With_getElem?,
      getCol_addCol_ne df _ htv_ne (totalsFallback_length df tv bv),
      getCol_addCol_ne df _ hbv_ne (totalsFallback_length df tv bv),
      getCol_addCol_self df _ _ (totalsFallback_length df tv bv),
      ha, hb]
    unfold totalsFallback
    rw [list_getElem?_zipWith, ha, hb]
    simp only [cellFillna0_of_toRat hx, cellFillna0_of_toRat hy, cellAdd_eq hx hy]
    simp [voteMarginCell, hx, hy, toRat_num, hxy]

/-- Witness for C6: counts 600 against 400 with no explicit total give
the derived total 1000 and the margin 20.0. -/
theorem vote_count_margin_spec_witness :
    tab1_margin c6_votes_table =
      .ok (.voteCounts ("trump_votes") ("biden_votes") ("__total_votes__"))
        (tab1_fallback_table c6_votes_table ("trump_votes") ("biden_votes"))
    ∧ getCol (tab1_fallback_table c6_votes_table ("trump_votes") ("biden_votes"))
        ("__total_votes__") = [Cell.num 1000]
    ∧ (getCol (tab1_fallback_table c6_votes_table ("trump_votes") ("biden_votes"))
        ("margin_pct"))[0]? = some (Cell.num 20) := by
  have h := (vote_count_margin_spec c6_votes_table ("trump_votes") ("biden_votes")
    (Or.inl (by decide)) (by decide) (by decide) (by decide)).2 (by decide)
  refine ⟨h.1, by decide, ?_⟩
  have h3 := h.2.2 0 (Cell.int 600) (Cell.int 400) 600 400 (by decide) (by decide)
    (by decide) (by decide) (by norm_num)
  rw [h3]
  norm_num

/-- C7: the per-row winner label follows a fixed three-tier fallback:
when both share columns resolve the label is the A outcome exactly
when the A share exceeds the B share (missing values compare false);
otherwise, when the derived margin column exists, the label is the A
outcome for strictly positive margin and the B outcome for negative,
zero or missing margin; otherwise every row gets the explicit unknown
sentinel. -/
theorem winner_label_three_tier (df : Table) :
    (∀ g d, pick_first df p_gop_24_cands = some g → pick_first df p_dem_24_cands = some d →
      ∀ i : Nat, ∀ r : Row, df.rows[i]? = some r →
        (getCol (add_winner_2024 df) ("Winner_2024"))[i]? =
          some (.str (if cellGT (getCell r g) (getCell r d) then ("Republican")
            else ("Democratic"))))
    ∧ ((pick_first df p_gop_24_cands = none ∨ pick_first df p_dem_24_cands = none) →
      ("per_point_diff_2024") ∈ df.cols →
      ∀ i : Nat, ∀ r : Row, df.rows[i]? = some r →
        (getCol (add_winner_2024 df) ("Winner_2024"))[i]? =
          some (.str (if cellPos (getCell r ("per_point_diff_2024")) then ("Republican")
            else ("Democratic"))))
    ∧ ((pick_first df p_gop_24_cands = none ∨ pick_first df p_dem_24_cands = none) →
      ("per_point_diff_2024") ∉ df.cols →
      ∀ i : Nat, ∀ r : Row, df.rows[i]? = some r →
        (getCol (add_winner_2024 df) ("Winner_2024"))[i]? = some (.str ("Unknown")))
    ∧ (∀ a b : Cell, cellGT a b = true ↔
        ∃ x y : ℚ, a.toRat = some x ∧ b.toRat = some y ∧ y < x)
    ∧ (∀ a : Cell, cellPos a = true ↔ ∃ x : ℚ, a.toRat = some x ∧ 0 < x) := by
  have hw : getCol (add_winner_2024 df) ("Winner_2024") = winner_2024_vals df :=
    getCol_addCol_self df _ _ (winner_2024_vals_length df)
  refine ⟨?_, ?_, ?_, ?_, ?_⟩
  · intro g d hg hd i r hr
    rw [hw]
    unfold winner_2024_vals
    rw [hg, hd]
    simp [hr]
  · intro hgd hmem i r hr
    rw [hw]
    unfold winner_2024_vals
    cases hg : pick_first df p_gop_24_cands with
    | some g =>
      cases hd : pick_first df p_dem_24_cands with
      | some d => rcases hgd with h | h <;> simp_all
      | none => simp [hmem, hr]
    | none =>
      cases hd : pick_first df p_dem_24_cands with
      | some d => simp [hmem, hr]
      | none => simp [hmem, hr]
  · intro hgd hmem i r hr
    rw [hw]
    unfold winner_2024_vals
    cases hg : pick_first df p_gop_24_cands with
    | some g =>
      cases hd : pick_first df p_dem_24_cands with
      | some d => rcases hgd with h | h <;> simp_all
      | none => simp [hmem, getElem?_lt_length hr]
    | none =>
      cases hd : pick_first df p_dem_24_cands with
      | some d => simp [hmem, getElem?_lt_length hr]
      | none => simp [hmem, getElem?_lt_length hr]
  · intro a b
    cases ha : a.toRat <;> cases hb : b.toRat <;> simp [cellGT, ha, hb]
  · intro a
    cases ha : a.toRat <;> simp [cellPos, ha]

/-- Witness for C7: on a joined table carrying only the margin column,
margin +3.2 labels the row Republican and margin -0.1 labels it
Democratic; on a table with no usable field the label is Unknown. -/
theorem winner_label_three_tier_witness :
    (getCol (add_winner_2024 c7_margin_table) ("Winner_2024"))[0]? =
      some (Cell.str ("Republican"))
    ∧ (getCol (add_winner_2024 c7_margin_table) ("Winner_2024"))[1]? =
      some (Cell.str ("Democratic"))
    ∧ (getCol (add_winner_2024 c7_bare_table) ("Winner_2024"))[0]? =
      some (Cell.str ("Unknown")) := by
  have h2 := (winner_label_three_tier c7_margin_table).2.1 (Or.inl (by decide)) (by decide)
  have h3 := (winner_label_three_tier c7_bare_table).2.2.1 (Or.inl (by decide)) (by decide)
  refine ⟨?_, ?_, ?_⟩
  · rw [h2 0 [(("per_point_diff_2024"), Cell.num (32 / 10))] (by decide)]
    decide
  · rw [h2 1 [(("per_point_diff_2024"), Cell.num (-(1 / 10)))] (by decide)]
    decide
  · exact h3 0 [(("county_fips"), Cell.str ("00001"))] (by decide)

theorem alookup_append_right {c : String} {a : Row} (b : Row) (h : alookup c a = none) :
    alookup c (a ++ b) = alookup c b := by
  induction a with
  | nil => rfl
  | cons p rest ih =>
    obtain ⟨k, w⟩ := p
    simp only [alookup, List.cons_append] at h ⊢
    by_cases hk : k = c
    · simp [hk] at h
    · simp only [hk, if_false] at h ⊢
      exact ih h

theorem alookup_map_getCell (idVars : List String) (r : Row) (c : String) :
    alookup c (idVars.map (fun x => (x, getCell r x))) =
      if c ∈ idVars then some (getCell r c) else none := by
  induction idVars with
  | nil => simp [alookup]
  | cons d rest ih =>
    simp only [List.map_cons, alookup]
    by_cases hdc : d = c
    · subst hdc
      simp
    · rw [if_neg hdc, ih]
      by_cases hc : c ∈ rest
      · simp [hc]
      · have hcd : ¬c = d := fun h => hdc h.symm
        simp [hc, hcd]

theorem getCell_melt_row_var (idVars : List String) (vn vl v : String) (r : Row)
    (hvn : vn ∉ idVars) :
    getCell (idVars.map (fun c => (c, getCell r c)) ++ [(vn, Cell.str v), (vl, getCell r v)])
      vn = Cell.str v := by
  have h1 : alookup vn (idVars.map (fun c => (c, getCell r c))) = none := by
    rw [alookup_map_getCell]
    simp [hvn]
  show (alookup vn (idVars.map (fun c => (c, getCell r c))
      ++ [(vn, Cell.str v), (vl, getCell r v)])).getD Cell.null = Cell.str v
  rw [alookup_append_right _ h1]
  simp [alookup]

theorem getCell_melt_row_val (idVars : List String) (vn vl v : String) (r : Row)
    (hvl : vl ∉ idVars) (hne : vn ≠ vl) :
    getCell (idVars.map (fun c => (c, getCell r c)) ++ [(vn, Cell.str v), (vl, getCell r v)])
      vl = getCell r v := by
  have h1 : alookup vl (idVars.map (fun c => (c, getCell r c))) = none := by
    rw [alookup_map_getCell]
    simp [hvl]
  show (alookup vl (idVars.map (fun c => (c, getCell r c))
      ++ [(vn, Cell.str v), (vl, getCell r v)])).getD Cell.null = getCell r v
  rw [alookup_append_right _ h1]
  simp [alookup, hne]

theorem getCell_melt_row_id (idVars : List String) (vn vl v : String) (r : Row) (c : String)
    (hc : c ∈ idVars) :
    getCell (idVars.map (fun x => (x, getCell r x))
        ++ [(vn, Cell.str v), (vl, getCell r v)]) c = getCell r c := by
  have h1 : alookup c (idVars.map (fun x => (x, getCell r x))) = some (getCell r c) := by
    rw [alookup_map_getCell]
    simp [hc]
  show (alookup c (idVars.map (fun x => (x, getCell r x))
      ++ [(vn, Cell.str v), (vl, getCell r v)])).getD Cell.null = getCell r c
  rw [alookup_append_left _ h1]
  rfl

theorem length_filter_flatMap {α β : Type} (vs : List α) (f : α → List β) (p : β → Bool) :
    ((vs.flatMap f).filter p).length = (vs.map (fun v => ((f v).filter p).length)).sum := by
  induction vs with
  | nil => rfl
  | cons v rest ih => simp [List.flatMap_cons, List.filter_append, ih]

/-- C8: every row of the long-format energy table carries a source
name drawn from the fixed nine-category fuel set and non-missing value
and geographic key cells; the number of long rows is exactly the
number of (row, fuel column) pairs of the wide table whose value and
geographic key are both present — so rows with a missing value or a
missing key are dropped and nothing else is. -/
theorem energy_long_reshape_spec (df : Table) :
    (∀ r ∈ (energy_long_df df).rows,
      (∃ v, getCell r ("source") = Cell.str v ∧ v ∈ fuel_sources)
      ∧ getCell r ("value") ≠ Cell.null ∧ getCell r ("iso_code") ≠ Cell.null)
    ∧ (energy_long_df df).rows.length =
      ((energy_value_vars df).map (fun v =>
        (energy_wide df).rows.countP (fun r =>
          decide (getCell r v ≠ Cell.null) && decide (getCell r ("iso_code") ≠ Cell.null)))).sum
    ∧ (∀ v ∈ energy_value_vars df, v ∈ fuel_sources) := by
  have hfuel : ∀ v ∈ energy_value_vars df, v ∈ fuel_sources := by
    intro v hv
    unfold energy_value_vars energy_wide filterItems at hv
    simp only [List.mem_filter, decide_eq_true_eq] at hv
    have key : ∀ c ∈ energy_filter_items, c ∉ energy_id_vars → c ∈ fuel_sources := by decide
    exact key v hv.1.1 (by simpa using hv.2)
  refine ⟨?_, ?_, hfuel⟩
  · intro r hr
    unfold energy_long_df dropna at hr
    simp only [List.mem_filter] at hr
    obtain ⟨hmelt, hall⟩ := hr
    simp only [List.all_cons, List.all_nil, Bool.and_true, Bool.and_eq_true,
      decide_eq_true_eq] at hall
    unfold melt at hmelt
    simp only [List.mem_flatMap, List.mem_map] at hmelt
    obtain ⟨v, hv, r0, hr0, hre⟩ := hmelt
    refine ⟨⟨v, ?_, hfuel v hv⟩, hall.1, hall.2⟩
    rw [← hre]
    exact getCell_melt_row_var energy_id_vars ("source") ("value") v r0 (by decide)
  · unfold energy_long_df dropna melt
    rw [length_filter_flatMap]
    have hvars : (energy_wide df).cols.filter (fun c => decide (c ∉ energy_id_vars)) =
        energy_value_vars df := rfl
    rw [hvars]
    congr 1
    apply List.map_congr_left
    intro v hv
    rw [List.filter_map, List.length_map, ← List.countP_eq_length_filter]
    apply List.countP_congr
    intro r0 hr0
    simp only [Function.comp_apply, List.all_cons, List.all_nil, Bool.and_true]
    rw [getCell_melt_row_val energy_id_vars ("source") ("value") v r0 (by decide) (by decide),
      getCell_melt_row_id energy_id_vars ("source") ("value") v r0 ("iso_code") (by decide)]

/-- Witness for C8: a wide row with five fuel columns of which one is
null yields exactly four long rows, the first tagged with the coal
source and present value and key. -/
theorem energy_long_reshape_spec_witness :
    ((∃ v, getCell c8_first_long_row ("source") = Cell.str v ∧ v ∈ fuel_sources)
      ∧ getCell c8_first_long_row ("value") ≠ Cell.null
      ∧ getCell c8_first_long_row ("iso_code") ≠ Cell.null)
    ∧ (energy_long_df c8_wide_table).rows.length = 4 := by
  constructor
  · exact (energy_long_reshape_spec c8_wide_table).1 c8_first_long_row (by decide)
  · rw [(energy_long_reshape_spec c8_wide_table).2.1]
    decide

theorem alookup_some_of_mem_keys {r : Row} {c : String} (h : c ∈ r.map Prod.fst) :
    ∃ v, alookup c r = some v := by
  induction r with
  | nil => simp at h
  | cons p rest ih =>
    obtain ⟨k, w⟩ := p
    by_cases hk : k = c
    · exact ⟨w, by simp [alookup, hk]⟩
    · simp only [List.map_cons, List.mem_cons] at h
      rcases h with h | h
      · exact absurd h.symm hk
      · obtain ⟨v, hv⟩ := ih h
        exact ⟨v, by simp [alookup, hk, hv]⟩

theorem alookup_map_ren (ren : String → String) (r : Row) (c : String)
    (hinj : ∀ p ∈ r, ren p.1 = ren c → p.1 = c) :
    alookup (ren c) (r.map (fun p => (ren p.1, p.2))) = alookup c r := by
  induction r with
  | nil => rfl
  | cons p rest ih =>
    obtain ⟨k, w⟩ := p
    simp only [List.map_cons, alookup]
    by_cases hk : k = c
    · simp [hk]
    · have hrk : ¬ren k = ren c := fun he => hk (hinj (k, w) (by simp) he)
      rw [if_neg hrk, if_neg hk]
      exact ih (fun p hp he => hinj p (by simp [hp]) he)

theorem getCell_append_renamed (ren : String → String) (r1 rest : Row) (c : String)
    (hkeys : c ∈ r1.map Prod.fst)
    (hinj : ∀ p ∈ r1, ren p.1 = ren c → p.1 = c) :
    getCell (r1.map (fun p => (ren p.1, p.2)) ++ rest) (ren c) = getCell r1 c := by
  obtain ⟨v, hv⟩ := alookup_some_of_mem_keys hkeys
  have h2 : alookup (ren c) (r1.map (fun p => (ren p.1, p.2))) = some v := by
    rw [alookup_map_ren ren r1 c hinj, hv]
  show (alookup (ren c) (r1.map (fun p => (ren p.1, p.2)) ++ rest)).getD Cell.null =
    (alookup c r1).getD Cell.null
  rw [alookup_append_left _ h2, hv]

/-- C4 (amended): the Cross-Year Joiner has inner-join semantics — a
key value occurs in the joined table exactly when it occurs in both
inputs (stated for well-formed left rows whose key column renames
injectively) — and the joined table carries both margin columns
whenever the suffixed share columns of both years resolve against it;
when the 2020 share columns do not resolve, the source's fallback is a
bare pass and no 2020 margin column is produced, so the two margin
columns are not guaranteed for every pair of inputs. -/
theorem cross_year_join_spec :
    (∀ (L R : Table) (keyL keyR : String) (v : Cell),
      (∀ r ∈ L.rows, r.map Prod.fst = L.cols) → keyL ∈ L.cols →
      (∀ c ∈ L.cols, mergeRenameL R.cols keyL keyR c = mergeRenameL R.cols keyL keyR keyL →
        c = keyL) →
      ((∃ r ∈ (mergeInner L R keyL keyR).rows,
          getCell r (mergeRenameL R.cols keyL keyR keyL) = v)
        ↔ ((∃ r1 ∈ L.rows, getCell r1 keyL = v) ∧ (∃ r2 ∈ R.rows, getCell r2 keyR = v))))
    ∧ (∀ m : Table, ∀ g d g2 d2 : String,
      pick_first m per_gop_2024_cands = some g → pick_first m per_dem_2024_cands = some d →
      pick_first m per_gop_2020_cands = some g2 → pick_first m per_dem_2020_cands = some d2 →
      ("per_point_diff_2024") ∈ (tab2_add_margins m).cols
      ∧ ("per_point_diff_2020") ∈ (tab2_add_margins m).cols) := by
  constructor
  · intro L R keyL keyR v hWF hkL hinj
    constructor
    · rintro ⟨r, hr, hget⟩
      unfold mergeInner at hr
      simp only [List.mem_flatMap, List.mem_map, List.mem_filter, decide_eq_true_eq] at hr
      obtain ⟨r1, hr1, r2, ⟨hr2, hkey⟩, hre⟩ := hr
      have hkeys : keyL ∈ r1.map Prod.fst := by rw [hWF r1 hr1]; exact hkL
      have hinj1 : ∀ p ∈ r1, mergeRenameL R.cols keyL keyR p.1 =
          mergeRenameL R.cols keyL keyR keyL → p.1 = keyL := by
        intro p hp he
        have : p.1 ∈ L.cols := by
          rw [← hWF r1 hr1]
          exact List.mem_map_of_mem Prod.fst hp
        exact hinj p.1 this he
      rw [← hre, getCell_append_renamed _ r1 _ keyL hkeys hinj1] at hget
      exact ⟨⟨r1, hr1, hget⟩, ⟨r2, hr2, by rw [hkey, hget]⟩⟩
    · rintro ⟨⟨r1, hr1, he1⟩, ⟨r2, hr2, he2⟩⟩
      have hkeys : keyL ∈ r1.map Prod.fst := by rw [hWF r1 hr1]; exact hkL
      have hinj1 : ∀ p ∈ r1, mergeRenameL R.cols keyL keyR p.1 =
          mergeRenameL R.cols keyL keyR keyL → p.1 = keyL := by
        intro p hp he
        have : p.1 ∈ L.cols := by
          rw [← hWF r1 hr1]
          exact List.mem_map_of_mem Prod.fst hp
        exact hinj p.1 this he
      refine ⟨r1.map (fun p => (mergeRenameL R.cols keyL keyR p.1, p.2)) ++
        ((if keyL = keyR then r2.filter (fun p => p.1 ≠ keyR) else r2).map
          (fun p => (mergeRenameR L.cols keyL keyR p.1, p.2))), ?_, ?_⟩
      · unfold mergeInner
        simp only [List.mem_flatMap, List.mem_map, List.mem_filter, decide_eq_true_eq]
        exact ⟨r1, hr1, r2, ⟨hr2, by rw [he2, he1]⟩, rfl⟩
      · rw [getCell_append_renamed _ r1 _ keyL hkeys hinj1]
        exact he1
  · intro m g d g2 d2 hg hd hg2 hd2
    have h24 : ("per_point_diff_2024") ∈ (tab2_margin24_block m).cols := by
      unfold tab2_margin24_block
      by_cases hmem : ("per_point_diff_2024") ∈ m.cols
      · rw [if_pos hmem]
        exact hmem
      · rw [if_neg hmem, hg, hd]
        exact mem_addCol_cols_self m _ _
    unfold tab2_add_margins tab2_margin20_block
    by_cases hmem20 : ("per_point_diff_2020") ∈ (tab2_margin24_block m).cols
    · rw [if_pos hmem20]
      exact ⟨h24, hmem20⟩
    · rw [if_neg hmem20, hg2, hd2]
      exact ⟨mem_addCol_cols_of _ _ h24, mem_addCol_cols_self _ _ _⟩

/-- C4 counterexample: two already-normalized key-only year tables
join to exactly one row, yet the joined output carries neither
`per_point_diff_2024` nor `per_point_diff_2020`, so not every joined
row carries the two margin columns. -/
theorem cross_year_join_counterexample :
    (tab2_merged c4_bare_left c4_bare_right ("GEOID") ("GEOID")).rows.length = 1
    ∧ ("per_point_diff_2024") ∉
        (tab2_add_margins (tab2_merged c4_bare_left c4_bare_right ("GEOID") ("GEOID"))).cols
    ∧ ("per_point_diff_2020") ∉
        (tab2_add_margins (tab2_merged c4_bare_left c4_bare_right ("GEOID") ("GEOID"))).cols := by
  refine ⟨by decide, by decide, by decide⟩

/-- Witness for C4: on tables with keys A, B, C against B, C, D the
key B occurs in the join exactly as the iff states, and the merged
table with resolvable suffixed share columns for both years carries
both margin columns. -/
theorem cross_year_join_spec_witness :
    ((∃ r ∈ (mergeInner c4_left_norm c4_right_norm ("county_fips") ("county_fips")).rows,
        getCell r (mergeRenameL c4_right_norm.cols ("county_fips") ("county_fips")
          ("county_fips")) = Cell.str ("0000B"))
      ↔ ((∃ r1 ∈ c4_left_norm.rows, getCell r1 ("county_fips") = Cell.str ("0000B"))
        ∧ (∃ r2 ∈ c4_right_norm.rows, getCell r2 ("county_fips") = Cell.str ("0000B"))))
    ∧ ("per_point_diff_2024") ∈ (tab2_add_margins c4_merged).cols
    ∧ ("per_point_diff_2020") ∈ (tab2_add_margins c4_merged).cols := by
  refine ⟨cross_year_join_spec.1 c4_left_norm c4_right_norm ("county_fips") ("county_fips")
    (Cell.str ("0000B")) (by decide) (by decide) (by decide), ?_⟩
  exact cross_year_join_spec.2 c4_merged ("per_gop_2024") ("per_dem_2024")
    ("per_gop_2020") ("per_dem_2020") (by decide) (by decide) (by decide) (by decide)

end ClaimTheorems

end Dashboards
